import Mathlib

/-!
Verification of the Quran recitation analysis pipeline
(forced alignment, tajwid rule detection, composite Q-WER scoring).

The Python source is shallowly embedded: floating-point numbers are
modelled as exact rationals (`ℚ`), Python lists as Lean `List`s, and
fallible code as `Except`.  Definitions mirror the source files
`src/alignment/forced_alignment.py`, `src/core_engine/acoustic/feature_extraction.py`
and the scoring section of `src/main.py`.
-/

namespace QuranAgent

/-- The tajwid rule tags, mirroring `TajwidRule(Enum)` in
`src/alignment/forced_alignment.py`. -/
inductive TajwidRule where
  | MADD
  | GHUNNAH
  | IKHFA
  | IDGHAM
  | QALQALAH
  | WAQF
  | NORMAL
deriving DecidableEq, Repr

/-- One aligned phoneme occurrence, mirroring the `PhonemeAlignment`
dataclass.  Times and durations are seconds as exact rationals. -/
structure PhonemeAlignment where
  phoneme : Char
  start_time : ℚ
  end_time : ℚ
  confidence : ℚ
  tajwid_rule : TajwidRule
  harakat : String
  duration : ℚ
deriving DecidableEq, Repr

/-- The rule-specific parameter payloads that `detect_tajwid_boundaries`
puts in a `TajwidBoundary.parameters` dict: `{'nasal_energy': r}` for
ghunnah, `{'expected_duration': e, 'actual_duration': a}` for madd,
`{}` for ikhfa and idgham, `{'intensity': v}` for qalqalah. -/
inductive BoundaryParams where
  | nasal (nasal_energy : ℚ)
  | madd (expected_duration actual_duration : ℚ)
  | empty
  | qalqalah (intensity : ℚ)
deriving DecidableEq, Repr

/-- A rule-boundary annotation, mirroring the `TajwidBoundary` dataclass. -/
structure TajwidBoundary where
  start_time : ℚ
  end_time : ℚ
  rule : TajwidRule
  confidence : ℚ
  parameters : BoundaryParams
deriving DecidableEq, Repr

/-! ## Forced aligner (`QuranForcedAligner.align_audio_to_text`)

The audio is the list of samples `y` with sample rate `sr`; the
reference text is represented after `load_uthmani_text` tokenization as
the list `words` of words, each a list of Arabic characters (that
function's regex-based diacritic stripping and tokenization is not
itself modelled: every claim below quantifies over all word lists). -/

/-- `audio_duration = len(y) / sr` (seconds). -/
def audioDuration (y : List ℚ) (sr : ℚ) : ℚ :=
  (y.length : ℚ) / sr

/-- `total_phonemes = sum(len(word) for word in words)`. -/
def totalPhonemes (words : List (List Char)) : ℕ :=
  (words.map List.length).sum

/-- The `for word in words: for char in word:` loop body of
`align_audio_to_text`: walk the phoneme characters, tracking
`current_time`, emitting one `PhonemeAlignment` per character with the
constant per-phoneme duration `avg` and the hard-coded confidence
`0.85`, harakat `'none'`, rule `NORMAL`. -/
def buildAlignments (avg : ℚ) : List Char → ℚ → List PhonemeAlignment
  | [], _ => []
  | c :: cs, t =>
      { phoneme := c, start_time := t, end_time := t + avg,
        confidence := 85/100, tajwid_rule := .NORMAL,
        harakat := "none", duration := avg } :: buildAlignments avg cs (t + avg)

/-- `QuranForcedAligner.align_audio_to_text` (src/alignment/forced_alignment.py,
lines 238-270): nominal duration `avg_phoneme_duration =
audio_duration / max(total_phonemes, 1)`, then the walk from
`current_time = 0.0`.  The function never raises: it returns whatever
list the walk produces. -/
def align_audio_to_text (y : List ℚ) (sr : ℚ) (words : List (List Char)) :
    List PhonemeAlignment :=
  let avg := audioDuration y sr / (max (totalPhonemes words) 1 : ℕ)
  buildAlignments avg words.flatten 0

/-! ## Tajwid rule detector (`QuranForcedAligner.detect_tajwid_boundaries`)

The per-segment acoustic computations `_detect_ghunnah` (FFT-based
nasal-energy ratio test, lines 180-190) and
`_calculate_qalqalah_intensity` (pre-emphasis envelope standard
deviation, lines 232-236) enter `detect_tajwid_boundaries` only as a
Boolean and a scalar per waveform slice; their spectral internals are
irrational-valued, so the model abstracts the pair as a function
parameter over which every theorem quantifies. -/

/-- The two per-segment acoustic routines of the detector, as functions
of the unit's waveform slice. -/
structure AcousticOracle where
  detect_ghunnah : List ℚ → Bool
  qalqalah_intensity : List ℚ → ℚ

/-- Python's `int(q)`: truncation toward zero. -/
def pyInt (q : ℚ) : ℤ :=
  if 0 ≤ q then ⌊q⌋ else -⌊-q⌋

/-- The slice `y[int(a.start_time * sr):int(a.end_time * sr)]` taken at
the top of the detector loop (line 126), for the non-negative start and
stop indices the alignment invariant guarantees. -/
def segmentOf (y : List ℚ) (sr : ℚ) (a : PhonemeAlignment) : List ℚ :=
  ((y.take (pyInt (a.end_time * sr)).toNat).drop (pyInt (a.start_time * sr)).toNat)

/-- `_detect_madd`: `phoneme in ['ا', 'و', 'ي'] and duration > 1.5`.
The threshold the source compares against is the literal `1.5`
(seconds), whatever the nominal per-phoneme duration is. -/
def detect_madd (phoneme : Char) (duration : ℚ) : Bool :=
  phoneme ∈ (['ا', 'و', 'ي'] : List Char) && duration > 3/2

/-- `_detect_ikhfa`: membership in the fixed 15-letter trigger set. -/
def detect_ikhfa (phoneme : Char) : Bool :=
  phoneme ∈ (['ت', 'ث', 'ج', 'د', 'ذ', 'ز', 'س', 'ش', 'ص',
              'ض', 'ط', 'ظ', 'ف', 'ق', 'ك'] : List Char)

/-- `_detect_idgham`: the (current, next) phoneme pair is in the fixed
pair list; `False` on the last index. -/
def detect_idgham (alignment : List PhonemeAlignment) (index : ℕ) : Bool :=
  match alignment.get? index, alignment.get? (index + 1) with
  | some current, some next_phoneme =>
      (current.phoneme, next_phoneme.phoneme) ∈
        ([('ن', 'ي'), ('ن', 'و'), ('ن', 'م'), ('ل', 'ل'), ('ر', 'ر')] :
          List (Char × Char))
  | _, _ => false

/-- `_detect_qalqalah`: membership in the fixed 5-letter set. -/
def detect_qalqalah (phoneme : Char) : Bool :=
  phoneme ∈ (['ب', 'ج', 'د', 'ط', 'ق'] : List Char)

/-- The runtime fault of `_calculate_nasal_energy` (lines 192-200): its
body evaluates `1/sr` but `sr` is not a parameter of that method and is
bound nowhere in its scope, so the call raises `NameError` before
computing anything. -/
inductive NameErr where
  | srNotDefined
deriving DecidableEq, Repr

/-- One iteration of the `for i, phoneme_align in enumerate(alignment)`
loop of `detect_tajwid_boundaries` (lines 125-176): the if/elif chain
yielding at most one boundary.  The ghunnah branch builds its parameter
dict by calling `_calculate_nasal_energy(segment)`, which raises
`NameError` (the `nasal` payload is never constructed). -/
def detectUnit (O : AcousticOracle) (y : List ℚ) (sr : ℚ)
    (alignment : List PhonemeAlignment) (i : ℕ) (a : PhonemeAlignment) :
    Except NameErr (Option TajwidBoundary) :=
  let segment := segmentOf y sr a
  if O.detect_ghunnah segment then
    Except.error NameErr.srNotDefined
  else if detect_madd a.phoneme a.duration then
    Except.ok (some
      { start_time := a.start_time, end_time := a.end_time,
        rule := .MADD, confidence := 85/100,
        parameters := .madd 2 a.duration })
  else if detect_ikhfa a.phoneme then
    Except.ok (some
      { start_time := a.start_time, end_time := a.end_time,
        rule := .IKHFA, confidence := 8/10, parameters := .empty })
  else if detect_idgham alignment i then
    Except.ok (some
      { start_time := a.start_time, end_time := a.end_time,
        rule := .IDGHAM, confidence := 88/100, parameters := .empty })
  else if detect_qalqalah a.phoneme then
    Except.ok (some
      { start_time := a.start_time, end_time := a.end_time,
        rule := .QALQALAH, confidence := 75/100,
        parameters := .qalqalah (O.qalqalah_intensity segment) })
  else
    Except.ok none

/-- The detector loop over the remaining units, `i` being the index of
the head within the full `alignment` list. -/
def detectLoop (O : AcousticOracle) (y : List ℚ) (sr : ℚ)
    (alignment : List PhonemeAlignment) :
    List PhonemeAlignment → ℕ → Except NameErr (List TajwidBoundary)
  | [], _ => Except.ok []
  | a :: rest, i =>
      match detectUnit O y sr alignment i a with
      | Except.error e => Except.error e
      | Except.ok r =>
          match detectLoop O y sr alignment rest (i + 1) with
          | Except.error e => Except.error e
          | Except.ok rs =>
              Except.ok (match r with
                         | some b => b :: rs
                         | none => rs)

/-- `QuranForcedAligner.detect_tajwid_boundaries` (lines 121-178). -/
def detect_tajwid_boundaries (O : AcousticOracle) (y : List ℚ) (sr : ℚ)
    (alignment : List PhonemeAlignment) : Except NameErr (List TajwidBoundary) :=
  detectLoop O y sr alignment alignment 0

/-! ## Acoustic feature extractor (`TajweedAcoustics.analyze_segment`)

`analyze_segment` in `src/core_engine/acoustic/feature_extraction.py`
first checks `duration = end_time - start_time`; if `duration <= 0` it
returns `{"error": "Invalid duration"}`, otherwise it loads the
requested slice `y` and returns `{"error": "Empty segment"}` when
`len(y) == 0`, else the feature dict.  The two error dicts are the
realization of the spec's `InvalidSegmentError`.  The four measure
methods (`_measure_pitch_stability`, `_extract_formants`,
`_measure_breathiness`, `_measure_intensity`) involve pyin pitch
tracking, LPC roots and framed zero-crossing/RMS statistics whose
values are irrational; they enter `analyze_segment` only as per-slice
scalars, so the model quantifies over them as total functions of the
slice. -/

/-- The two failure dicts of `analyze_segment`. -/
inductive InvalidSegmentError where
  | invalidDuration
  | emptySegment
deriving DecidableEq, Repr

/-- The feature dict returned on success. -/
structure AcousticFeatures where
  pitch_stability : ℚ
  f1 : ℚ
  f2 : ℚ
  breathiness : ℚ
  intensity_profile : ℚ
  duration_ms : ℚ
deriving DecidableEq, Repr

/-- The four per-slice measure methods of `TajweedAcoustics`, as
functions of the loaded slice. -/
structure AcousticMeasures where
  pitch_stability : List ℚ → ℚ
  formants : List ℚ → ℚ × ℚ
  breathiness : List ℚ → ℚ
  intensity : List ℚ → ℚ

/-- `TajweedAcoustics.analyze_segment` (lines 15-34): `y` is the slice
that `librosa.load(..., offset=start_time, duration=duration)` delivers
for the request. -/
def analyze_segment (M : AcousticMeasures) (sr : ℚ) (y : List ℚ)
    (start_time end_time : ℚ) : Except InvalidSegmentError AcousticFeatures :=
  let duration := end_time - start_time
  if duration ≤ 0 then Except.error .invalidDuration
  else if y.length = 0 then Except.error .emptySegment
  else Except.ok
    { pitch_stability := M.pitch_stability y,
      f1 := (M.formants y).1, f2 := (M.formants y).2,
      breathiness := M.breathiness y,
      intensity_profile := M.intensity y,
      duration_ms := (y.length : ℚ) / sr * 1000 }

/-! ## Composite scorer (`analyze_audio` in `src/main.py`, lines 144-178)

The scoring tail of `analyze_audio` starts from the externally supplied
lexical error rate `wer` (an opaque input, per the scoring contract) and
the reference word count and transcription length.  Python's
`round(x, 2)` is modelled as exact round-half-to-even of `100·x`
divided by 100, and `int(x)` as truncation toward zero. -/

/-- Round-half-to-even to an integer, Python's `round(q)` on exact
rationals. -/
def pyRoundHalfEven (q : ℚ) : ℤ :=
  if q - ⌊q⌋ < 1/2 then ⌊q⌋
  else if 1/2 < q - ⌊q⌋ then ⌊q⌋ + 1
  else if Even ⌊q⌋ then ⌊q⌋ else ⌊q⌋ + 1

/-- Python's `round(q, 2)`. -/
def pyRound2 (q : ℚ) : ℚ :=
  (pyRoundHalfEven (q * 100) : ℚ) / 100

/-- The `error_breakdown` dict (lines 158-163). -/
structure ErrorBreakdown where
  makhraj : ℚ
  tajwid : ℚ
  harakat : ℚ
  rhythm : ℚ
deriving DecidableEq, Repr

/-- The `QWERAnalysis` payload assembled in `analysis_result`
(lines 165-178), up to the four fixed `detailed_errors` text records. -/
structure QWERAnalysis where
  qwer : ℚ
  level : String
  error_breakdown : ErrorBreakdown
  total_errors : ℤ
  total_phonemes : ℕ
  dominant_error_types : List String
deriving DecidableEq, Repr

/-- The Q-WER score variable `qwer = wer * 100` (line 147), before the
2-decimal rounding applied when it is stored in the result. -/
def qwerScore (wer : ℚ) : ℚ := wer * 100

/-- The scoring tail of `analyze_audio` (src/main.py, lines 144-178):
level thresholding on `qwer`, the fixed 30/40/20/10 category split,
`total_errors = int(qwer * reference_word_count / 100)`,
`total_phonemes = len(transcription)`, and the hard-coded dominant
error types. -/
def analyze_audio_scoring (wer : ℚ) (referenceWordCount : ℕ)
    (transcriptionLength : ℕ) : QWERAnalysis :=
  let qwer := wer * 100
  let level := if qwer < 10 then "Advanced"
               else if qwer < 25 then "Intermediate"
               else "Beginner"
  { qwer := pyRound2 qwer,
    level := level,
    error_breakdown :=
      { makhraj := qwer * (3/10), tajwid := qwer * (4/10),
        harakat := qwer * (2/10), rhythm := qwer * (1/10) },
    total_errors := pyInt (qwer * referenceWordCount / 100),
    total_phonemes := transcriptionLength,
    dominant_error_types := ["tajwid", "makhraj"] }

/-! ## Lemmas about the aligner walk -/

lemma buildAlignments_length (avg : ℚ) :
    ∀ (cs : List Char) (t : ℚ), (buildAlignments avg cs t).length = cs.length
  | [], _ => rfl
  | _ :: cs, t => by
      simp [buildAlignments, buildAlignments_length avg cs (t + avg)]

lemma buildAlignments_map_phoneme (avg : ℚ) :
    ∀ (cs : List Char) (t : ℚ),
      (buildAlignments avg cs t).map PhonemeAlignment.phoneme = cs
  | [], _ => rfl
  | _ :: cs, t => by
      simp [buildAlignments, buildAlignments_map_phoneme avg cs (t + avg)]

lemma buildAlignments_map_duration (avg : ℚ) :
    ∀ (cs : List Char) (t : ℚ),
      (buildAlignments avg cs t).map PhonemeAlignment.duration =
        List.replicate cs.length avg
  | [], _ => rfl
  | _ :: cs, t => by
      simp [buildAlignments, List.replicate_succ,
        buildAlignments_map_duration avg cs (t + avg)]

lemma buildAlignments_mem_fields (avg : ℚ) :
    ∀ (cs : List Char) (t : ℚ) (x : PhonemeAlignment),
      x ∈ buildAlignments avg cs t →
      x.confidence = 85/100 ∧ x.duration = avg ∧ x.end_time = x.start_time + avg
  | [], _, x, hx => by cases hx
  | c :: cs, t, x, hx => by
      simp only [buildAlignments, List.mem_cons] at hx
      rcases hx with hx | hx
      · subst hx; exact ⟨rfl, rfl, rfl⟩
      · exact buildAlignments_mem_fields avg cs (t + avg) x hx

lemma buildAlignments_mem_start (avg : ℚ) (h : 0 ≤ avg) :
    ∀ (cs : List Char) (t : ℚ) (x : PhonemeAlignment),
      x ∈ buildAlignments avg cs t → t ≤ x.start_time
  | [], _, x, hx => by cases hx
  | c :: cs, t, x, hx => by
      simp only [buildAlignments, List.mem_cons] at hx
      rcases hx with hx | hx
      · subst hx; exact le_refl t
      · have := buildAlignments_mem_start avg h cs (t + avg) x hx
        linarith

lemma buildAlignments_chain_adjacent (avg : ℚ) :
    ∀ (cs : List Char) (t : ℚ),
      List.Chain' (fun a b : PhonemeAlignment => a.end_time ≤ b.start_time)
        (buildAlignments avg cs t)
  | [], _ => List.chain'_nil
  | [c], t => by simp [buildAlignments]
  | c :: c2 :: cs, t => by
      rw [show buildAlignments avg (c :: c2 :: cs) t =
            { phoneme := c, start_time := t, end_time := t + avg,
              confidence := 85/100, tajwid_rule := .NORMAL,
              harakat := "none", duration := avg } ::
            buildAlignments avg (c2 :: cs) (t + avg) from rfl]
      rw [show buildAlignments avg (c2 :: cs) (t + avg) =
            { phoneme := c2, start_time := t + avg, end_time := t + avg + avg,
              confidence := 85/100, tajwid_rule := .NORMAL,
              harakat := "none", duration := avg } ::
            buildAlignments avg (cs) (t + avg + avg) from rfl]
      refine List.chain'_cons.mpr ⟨le_refl _, ?_⟩
      have := buildAlignments_chain_adjacent avg (c2 :: cs) (t + avg)
      rwa [show buildAlignments avg (c2 :: cs) (t + avg) =
            { phoneme := c2, start_time := t + avg, end_time := t + avg + avg,
              confidence := 85/100, tajwid_rule := .NORMAL,
              harakat := "none", duration := avg } ::
            buildAlignments avg (cs) (t + avg + avg) from rfl] at this

lemma buildAlignments_pairwise_start (avg : ℚ) (h : 0 ≤ avg) :
    ∀ (cs : List Char) (t : ℚ),
      List.Pairwise (fun a b : PhonemeAlignment => a.start_time ≤ b.start_time)
        (buildAlignments avg cs t)
  | [], _ => List.Pairwise.nil
  | c :: cs, t => by
      refine List.Pairwise.cons (fun x hx => ?_)
        (buildAlignments_pairwise_start avg h cs (t + avg))
      have := buildAlignments_mem_start avg h cs (t + avg) x hx
      show t ≤ x.start_time
      linarith

lemma totalPhonemes_eq_flatten_length (words : List (List Char)) :
    totalPhonemes words = words.flatten.length := by
  simp [totalPhonemes, List.length_flatten]

/-- C1: for every non-empty waveform and every reference yielding at
least one phoneme, `align_audio_to_text` returns exactly one entry per
reference phoneme (in reference order, so nothing is dropped or
reordered), the entries are ordered by start time, and each entry's
end time is at most the next entry's start time (no overlap). -/
theorem C1_alignment_gapless_monotone (y : List ℚ) (sr : ℚ)
    (words : List (List Char)) (hy : y ≠ []) (hsr : 0 < sr)
    (hp : 0 < totalPhonemes words) :
    (align_audio_to_text y sr words).length = totalPhonemes words ∧
    (align_audio_to_text y sr words).map PhonemeAlignment.phoneme = words.flatten ∧
    List.Pairwise (fun a b : PhonemeAlignment => a.start_time ≤ b.start_time)
      (align_audio_to_text y sr words) ∧
    List.Chain' (fun a b : PhonemeAlignment => a.end_time ≤ b.start_time)
      (align_audio_to_text y sr words) := by
  have havg : 0 ≤ audioDuration y sr / (max (totalPhonemes words) 1 : ℕ) := by
    apply div_nonneg
    · exact div_nonneg (by positivity) (le_of_lt hsr)
    · positivity
  refine ⟨?_, ?_, ?_, ?_⟩
  · rw [align_audio_to_text, buildAlignments_length,
      totalPhonemes_eq_flatten_length]
  · exact buildAlignments_map_phoneme _ _ _
  · exact buildAlignments_pairwise_start _ havg _ _
  · exact buildAlignments_chain_adjacent _ _ _

/-- Witness for C1 at a concrete input: 4 samples at rate 2, reference
`[['ب','س'],['م']]` (3 phonemes). -/
theorem C1_alignment_gapless_monotone_witness :
    (([1, 0, 1, 0] : List ℚ) ≠ [] ∧ (0 : ℚ) < 2 ∧
      0 < totalPhonemes [['ب', 'س'], ['م']]) ∧
    ((align_audio_to_text [1, 0, 1, 0] 2 [['ب', 'س'], ['م']]).length =
        totalPhonemes [['ب', 'س'], ['م']] ∧
      (align_audio_to_text [1, 0, 1, 0] 2 [['ب', 'س'], ['م']]).map
          PhonemeAlignment.phoneme = [['ب', 'س'], ['م']].flatten ∧
      List.Pairwise (fun a b : PhonemeAlignment => a.start_time ≤ b.start_time)
        (align_audio_to_text [1, 0, 1, 0] 2 [['ب', 'س'], ['م']]) ∧
      List.Chain' (fun a b : PhonemeAlignment => a.end_time ≤ b.start_time)
        (align_audio_to_text [1, 0, 1, 0] 2 [['ب', 'س'], ['م']])) :=
  ⟨⟨by decide, by norm_num, by decide⟩,
    C1_alignment_gapless_monotone [1, 0, 1, 0] 2 [['ب', 'س'], ['م']]
      (by decide) (by norm_num) (by decide)⟩

/-- C2: for a non-empty waveform and a reference with at least one
phoneme, the durations of the alignment units sum exactly to the audio
duration `len(y)/sr` (hence within the 1e-6 s tolerance). -/
theorem C2_duration_conservation (y : List ℚ) (sr : ℚ)
    (words : List (List Char)) (hy : y ≠ []) (hsr : 0 < sr)
    (hp : 0 < totalPhonemes words) :
    ((align_audio_to_text y sr words).map PhonemeAlignment.duration).sum =
      audioDuration y sr ∧
    |((align_audio_to_text y sr words).map PhonemeAlignment.duration).sum -
        audioDuration y sr| ≤ 1/1000000 := by
  have hmax : max (totalPhonemes words) 1 = totalPhonemes words :=
    max_eq_left hp
  have hsum : ((align_audio_to_text y sr words).map
      PhonemeAlignment.duration).sum = audioDuration y sr := by
    rw [align_audio_to_text, buildAlignments_map_duration, List.sum_replicate,
      nsmul_eq_mul, hmax, ← totalPhonemes_eq_flatten_length]
    have hne : ((totalPhonemes words : ℕ) : ℚ) ≠ 0 := by
      exact_mod_cast Nat.pos_iff_ne_zero.mp hp
    field_simp
  exact ⟨hsum, by rw [hsum]; simp⟩

/-- Witness for C2 at the same concrete input as C1. -/
theorem C2_duration_conservation_witness :
    (([1, 0, 1, 0] : List ℚ) ≠ [] ∧ (0 : ℚ) < 2 ∧
      0 < totalPhonemes [['ب', 'س'], ['م']]) ∧
    (((align_audio_to_text [1, 0, 1, 0] 2 [['ب', 'س'], ['م']]).map
        PhonemeAlignment.duration).sum = audioDuration [1, 0, 1, 0] 2 ∧
      |((align_audio_to_text [1, 0, 1, 0] 2 [['ب', 'س'], ['م']]).map
          PhonemeAlignment.duration).sum - audioDuration [1, 0, 1, 0] 2| ≤
        1/1000000) :=
  ⟨⟨by decide, by norm_num, by decide⟩,
    C2_duration_conservation [1, 0, 1, 0] 2 [['ب', 'س'], ['م']]
      (by decide) (by norm_num) (by decide)⟩

/-- C7 counterexample: `align_audio_to_text` signals no error on the
structurally empty inputs.  A reference yielding zero phonemes makes it
silently return the empty alignment list, and a zero-sample waveform
makes it return a zero-duration unit instead of failing. -/
theorem C7_counterexample :
    align_audio_to_text [1, 0] 1 [] = [] ∧
    align_audio_to_text [] 1 [['ب']] =
      [{ phoneme := 'ب', start_time := 0, end_time := 0,
         confidence := 85/100, tajwid_rule := .NORMAL,
         harakat := "none", duration := 0 }] := by
  constructor
  · rfl
  · norm_num [align_audio_to_text, audioDuration, totalPhonemes,
      buildAlignments]

/-- C7 as amended: `align_audio_to_text` never raises.  An empty
reference produces the empty list, and for a zero-sample waveform each
of the `totalPhonemes` units has duration `0`. -/
theorem C7_amended_no_failure :
    (∀ (y : List ℚ) (sr : ℚ), align_audio_to_text y sr [] = []) ∧
    (∀ (sr : ℚ) (words : List (List Char)),
      (align_audio_to_text [] sr words).map PhonemeAlignment.duration =
        List.replicate (totalPhonemes words) 0) := by
  constructor
  · intro y sr; rfl
  · intro sr words
    rw [align_audio_to_text, buildAlignments_map_duration,
      totalPhonemes_eq_flatten_length]
    have : audioDuration [] sr = 0 := by
      simp [audioDuration]
    rw [this, zero_div]

/-- C9 counterexample: the aligner reads the waveform only through its
length, so zeroing the samples of unit 1's window `[1s, 2s)` leaves
the whole alignment — in particular unit 1's confidence, the constant
`0.85` — unchanged, not strictly decreased. -/
theorem C9_counterexample :
    align_audio_to_text [1, 1, 0, 0] 2 [['ب', 'س']] =
      align_audio_to_text [1, 1, 1, 1] 2 [['ب', 'س']] ∧
    (align_audio_to_text [1, 1, 0, 0] 2 [['ب', 'س']]).map
        PhonemeAlignment.confidence = [85/100, 85/100] := by
  constructor
  · rfl
  · norm_num [align_audio_to_text, audioDuration, totalPhonemes,
      buildAlignments]

/-- C9 as amended: per-unit confidence is the constant `0.85`
regardless of the waveform's contents; two waveforms of equal length
give identical alignments, so silencing a window never changes any
unit's confidence. -/
theorem C9_amended_constant_confidence (y₁ y₂ : List ℚ) (sr : ℚ)
    (words : List (List Char)) (hlen : y₁.length = y₂.length) :
    align_audio_to_text y₁ sr words = align_audio_to_text y₂ sr words ∧
    ∀ x ∈ align_audio_to_text y₁ sr words, x.confidence = 85/100 := by
  constructor
  · rw [align_audio_to_text, align_audio_to_text, audioDuration,
      audioDuration, hlen]
  · intro x hx
    exact (buildAlignments_mem_fields _ _ _ x hx).1

/-- Witness for the amended C9 at concrete equal-length waveforms. -/
theorem C9_amended_constant_confidence_witness :
    (([1] : List ℚ).length = ([2] : List ℚ).length) ∧
    (align_audio_to_text [1] 1 [['ب']] = align_audio_to_text [2] 1 [['ب']] ∧
      ∀ x ∈ align_audio_to_text [1] 1 [['ب']], x.confidence = 85/100) :=
  ⟨rfl, C9_amended_constant_confidence [1] [2] 1 [['ب']] rfl⟩

/-! ## Lemmas about the rule detector -/

lemma detectUnit_ok_some (O : AcousticOracle) (y : List ℚ) (sr : ℚ)
    (A : List PhonemeAlignment) (i : ℕ) (a : PhonemeAlignment)
    (b : TajwidBoundary) (h : detectUnit O y sr A i a = Except.ok (some b)) :
    b.rule ≠ TajwidRule.GHUNNAH ∧ ∀ r, b.parameters ≠ BoundaryParams.nasal r := by
  simp only [detectUnit] at h
  split_ifs at h <;>
    simp only [Except.ok.injEq, Option.some.injEq] at h <;>
    (try cases h) <;>
    (try exact ⟨by simp, fun r => by simp⟩)

lemma detectLoop_error_of_trigger (O : AcousticOracle) (y : List ℚ) (sr : ℚ)
    (A : List PhonemeAlignment) :
    ∀ (L : List PhonemeAlignment) (i : ℕ),
      (∃ a ∈ L, O.detect_ghunnah (segmentOf y sr a) = true) →
      detectLoop O y sr A L i = Except.error NameErr.srNotDefined
  | [], _, h => by
      rcases h with ⟨a, ha, _⟩
      cases ha
  | x :: L, i, h => by
      rcases h with ⟨a, ha, htrig⟩
      rcases List.mem_cons.mp ha with rfl | ha'
      · simp [detectLoop, detectUnit, htrig]
      · rcases hu : detectUnit O y sr A i x with e | r
        · cases e
          simp [detectLoop, hu]
        · have htail := detectLoop_error_of_trigger O y sr A L (i + 1)
            ⟨a, ha', htrig⟩
          simp [detectLoop, hu, htail]

lemma detectLoop_ok_sound (O : AcousticOracle) (y : List ℚ) (sr : ℚ)
    (A : List PhonemeAlignment) :
    ∀ (L : List PhonemeAlignment) (i : ℕ) (bs : List TajwidBoundary),
      detectLoop O y sr A L i = Except.ok bs →
      ∀ b ∈ bs, b.rule ≠ TajwidRule.GHUNNAH ∧
        ∀ r, b.parameters ≠ BoundaryParams.nasal r
  | [], _, bs, h => by
      simp only [detectLoop, Except.ok.injEq] at h
      subst h
      intro b hb
      cases hb
  | x :: L, i, bs, h => by
      rcases hu : detectUnit O y sr A i x with e | r
      · rw [detectLoop, hu] at h
        cases h
      · rcases ht : detectLoop O y sr A L (i + 1) with e' | rs
        · rw [detectLoop, hu, ht] at h
          cases h
        · have htail := detectLoop_ok_sound O y sr A L (i + 1) rs ht
          rw [detectLoop, hu, ht] at h
          rcases r with _ | b'
          · simp only [Except.ok.injEq] at h
            subst h
            exact htail
          · simp only [Except.ok.injEq] at h
            subst h
            intro b hb
            rcases List.mem_cons.mp hb with rfl | hb'
            · exact detectUnit_ok_some O y sr A i x b hu
            · exact htail b hb'

/-- C10: if any unit's waveform slice satisfies the ghunnah trigger,
`detect_tajwid_boundaries` aborts with the `NameError` raised inside
`_calculate_nasal_energy` (whose body reads the undefined name `sr`)
instead of returning a boundary list; consequently no returned boundary
list ever contains a ghunnah boundary or a nasal-energy payload. -/
theorem C10_ghunnah_payload_name_error :
    (∀ (O : AcousticOracle) (y : List ℚ) (sr : ℚ)
        (A : List PhonemeAlignment),
      (∃ a ∈ A, O.detect_ghunnah (segmentOf y sr a) = true) →
      detect_tajwid_boundaries O y sr A = Except.error NameErr.srNotDefined) ∧
    (∀ (O : AcousticOracle) (y : List ℚ) (sr : ℚ)
        (A : List PhonemeAlignment) (bs : List TajwidBoundary),
      detect_tajwid_boundaries O y sr A = Except.ok bs →
      ∀ b ∈ bs, b.rule ≠ TajwidRule.GHUNNAH ∧
        ∀ r, b.parameters ≠ BoundaryParams.nasal r) := by
  constructor
  · intro O y sr A h
    exact detectLoop_error_of_trigger O y sr A A 0 h
  · intro O y sr A bs h
    exact detectLoop_ok_sound O y sr A A 0 bs h

/-- Witness for C10 at a concrete one-unit alignment whose slice
triggers the ghunnah condition. -/
theorem C10_ghunnah_payload_name_error_witness :
    (∃ a ∈ [{ phoneme := 'ن', start_time := 0, end_time := 1,
              confidence := 85/100, tajwid_rule := TajwidRule.NORMAL,
              harakat := "none", duration := 1 : PhonemeAlignment }],
      (⟨fun _ => true, fun _ => 0⟩ : AcousticOracle).detect_ghunnah
        (segmentOf [1] 1 a) = true) ∧
    detect_tajwid_boundaries ⟨fun _ => true, fun _ => 0⟩ [1] 1
      [{ phoneme := 'ن', start_time := 0, end_time := 1,
         confidence := 85/100, tajwid_rule := TajwidRule.NORMAL,
         harakat := "none", duration := 1 }] =
      Except.error NameErr.srNotDefined :=
  ⟨⟨_, List.mem_singleton.mpr rfl, rfl⟩,
    C10_ghunnah_payload_name_error.1 ⟨fun _ => true, fun _ => 0⟩ [1] 1 _
      ⟨_, List.mem_singleton.mpr rfl, rfl⟩⟩

/-- C6 (evaluation of the code bug): for a unit whose slice satisfies
the ghunnah trigger and whose phoneme `'ق'` is in the 5-letter qalqalah
set, the detector takes the higher-priority ghunnah branch first, but
that branch's `_calculate_nasal_energy` call raises `NameError`, so the
detector returns no boundary set at all rather than the single GHUNNAH
boundary the specification requires. -/
theorem C6_both_triggers_abort :
    detect_tajwid_boundaries ⟨fun _ => true, fun _ => 0⟩ [1, 1] 2
      [{ phoneme := 'ق', start_time := 0, end_time := 1,
         confidence := 85/100, tajwid_rule := TajwidRule.NORMAL,
         harakat := "none", duration := 1 }] =
      Except.error NameErr.srNotDefined ∧
    detect_qalqalah 'ق' = true := by
  constructor
  · simp [detect_tajwid_boundaries, detectLoop, detectUnit]
  · rfl

/-- C5 as amended: for a unit whose ghunnah condition did not fire, a
MADD boundary with confidence `0.85` is emitted if and only if the
phoneme is one of the three long-vowel letters AND its aligned duration
exceeds the absolute threshold of `1.5` seconds — not `1.5×` the
nominal per-phoneme duration. -/
theorem C5_amended_madd_absolute_threshold (O : AcousticOracle)
    (y : List ℚ) (sr : ℚ) (A : List PhonemeAlignment) (i : ℕ)
    (a : PhonemeAlignment)
    (hg : O.detect_ghunnah (segmentOf y sr a) = false) :
    (detectUnit O y sr A i a =
      Except.ok (some
        { start_time := a.start_time, end_time := a.end_time,
          rule := TajwidRule.MADD, confidence := 85/100,
          parameters := BoundaryParams.madd 2 a.duration }) ↔
    (a.phoneme ∈ (['ا', 'و', 'ي'] : List Char) ∧ a.duration > 3/2)) := by
  have hmadd : (detect_madd a.phoneme a.duration = true) ↔
      (a.phoneme ∈ (['ا', 'و', 'ي'] : List Char) ∧ a.duration > 3/2) := by
    simp [detect_madd]
  rw [← hmadd]
  constructor
  · intro h
    by_contra hm
    have hm' : detect_madd a.phoneme a.duration = false := by
      simpa using hm
    simp only [detectUnit, hg, hm', Bool.false_eq_true, if_false] at h
    split_ifs at h <;> simp_all
  · intro hm
    simp [detectUnit, hg, hm]

/-- Witness for the amended C5: a long-vowel unit of duration `2 s`
(with the ghunnah condition off) receives the MADD boundary. -/
theorem C5_amended_madd_absolute_threshold_witness :
    ((⟨fun _ => false, fun _ => 0⟩ : AcousticOracle).detect_ghunnah
      (segmentOf [1] 1
        { phoneme := 'ا', start_time := 0, end_time := 2,
          confidence := 85/100, tajwid_rule := TajwidRule.NORMAL,
          harakat := "none", duration := 2 }) = false) ∧
    detectUnit ⟨fun _ => false, fun _ => 0⟩ [1] 1 [] 0
      { phoneme := 'ا', start_time := 0, end_time := 2,
        confidence := 85/100, tajwid_rule := TajwidRule.NORMAL,
        harakat := "none", duration := 2 } =
      Except.ok (some
        { start_time := 0, end_time := 2,
          rule := TajwidRule.MADD, confidence := 85/100,
          parameters := BoundaryParams.madd 2 2 }) :=
  ⟨rfl,
    (C5_amended_madd_absolute_threshold ⟨fun _ => false, fun _ => 0⟩ [1] 1 [] 0
      { phoneme := 'ا', start_time := 0, end_time := 2,
        confidence := 85/100, tajwid_rule := TajwidRule.NORMAL,
        harakat := "none", duration := 2 } rfl).mpr
      ⟨by decide, by norm_num⟩⟩

/-- C5 counterexample: with total audio duration `10 s` and 2 reference
units, the nominal per-phoneme duration is `5 s`; the alif unit's
duration `2 s` does NOT exceed `1.5×` that nominal duration, yet the
detector emits a MADD boundary for it, because the source compares the
duration against the literal `1.5`. -/
theorem C5_counterexample :
    detect_tajwid_boundaries ⟨fun _ => false, fun _ => 0⟩
      [1, 1, 1, 1, 1, 1, 1, 1, 1, 1] 1
      [{ phoneme := 'ا', start_time := 0, end_time := 2,
         confidence := 85/100, tajwid_rule := TajwidRule.NORMAL,
         harakat := "none", duration := 2 },
       { phoneme := 'م', start_time := 2, end_time := 10,
         confidence := 85/100, tajwid_rule := TajwidRule.NORMAL,
         harakat := "none", duration := 8 }] =
      Except.ok
        [{ start_time := 0, end_time := 2,
           rule := TajwidRule.MADD, confidence := 85/100,
           parameters := BoundaryParams.madd 2 2 }] ∧
    ¬ ((2 : ℚ) > 3/2 *
        (audioDuration [1, 1, 1, 1, 1, 1, 1, 1, 1, 1] 1 / (2 : ℚ))) := by
  constructor
  · simp [detect_tajwid_boundaries, detectLoop, detectUnit, detect_madd,
      detect_ikhfa, detect_idgham, detect_qalqalah]
    norm_num
  · norm_num [audioDuration]

/-- C8: `analyze_segment` fails (with one of the two
`InvalidSegmentError` cases) exactly when the requested slice is empty
or `end_time ≤ start_time`; every non-empty slice with
`end_time > start_time` yields the feature snapshot without error. -/
theorem C8_invalid_segment_exactly (M : AcousticMeasures) (sr : ℚ)
    (y : List ℚ) (start_time end_time : ℚ) :
    ((∃ err, analyze_segment M sr y start_time end_time = Except.error err) ↔
      (y = [] ∨ end_time ≤ start_time)) ∧
    (y ≠ [] → start_time < end_time →
      analyze_segment M sr y start_time end_time = Except.ok
        { pitch_stability := M.pitch_stability y,
          f1 := (M.formants y).1, f2 := (M.formants y).2,
          breathiness := M.breathiness y,
          intensity_profile := M.intensity y,
          duration_ms := (y.length : ℚ) / sr * 1000 }) := by
  have hdur : (end_time - start_time ≤ 0) ↔ end_time ≤ start_time :=
    sub_nonpos
  constructor
  · constructor
    · intro ⟨err, herr⟩
      by_contra hcon
      push_neg at hcon
      obtain ⟨hy, hts⟩ := hcon
      rw [analyze_segment] at herr
      rw [if_neg (by rw [hdur]; exact not_le.mpr hts),
        if_neg (by simpa using hy)] at herr
      cases herr
    · intro h
      rcases h with hy | hts
      · by_cases hd : end_time - start_time ≤ 0
        · exact ⟨.invalidDuration, by rw [analyze_segment, if_pos hd]⟩
        · exact ⟨.emptySegment, by
            rw [analyze_segment, if_neg hd, if_pos (by simp [hy])]⟩
      · exact ⟨.invalidDuration, by
          rw [analyze_segment, if_pos (hdur.mpr hts)]⟩
  · intro hy hts
    rw [analyze_segment,
      if_neg (by rw [hdur]; exact not_le.mpr hts),
      if_neg (by simpa using hy)]

/-- Witness for C8: a one-sample slice over the window `[0, 1]`
succeeds; the error side is exercised with an empty slice. -/
theorem C8_invalid_segment_exactly_witness :
    (([1] : List ℚ) ≠ [] ∧ (0 : ℚ) < 1) ∧
    analyze_segment ⟨fun _ => 0, fun _ => (0, 0), fun _ => 0, fun _ => 0⟩
        1 [1] 0 1 =
      Except.ok
        { pitch_stability := 0, f1 := 0, f2 := 0, breathiness := 0,
          intensity_profile := 0, duration_ms := 1000 } :=
  ⟨⟨by simp, by norm_num⟩, by
    have h := (C8_invalid_segment_exactly
      ⟨fun _ => 0, fun _ => (0, 0), fun _ => 0, fun _ => 0⟩
      1 [1] 0 1).2 (by simp) (by norm_num)
    rw [h]
    norm_num⟩

/-! ## Lemmas about Python rounding -/

lemma pyRoundHalfEven_abs_le (x : ℚ) : |x - pyRoundHalfEven x| ≤ 1/2 := by
  have h0 : (⌊x⌋ : ℚ) ≤ x := Int.floor_le x
  have h1 : x < ⌊x⌋ + 1 := Int.lt_floor_add_one x
  rw [pyRoundHalfEven]
  split_ifs with ha hb hc
  · rw [abs_of_nonneg (by linarith)]
    linarith
  · push_cast
    rw [abs_of_nonpos (by linarith)]
    linarith
  · rw [abs_of_nonneg (by linarith)]
    linarith
  · push_cast
    rw [abs_of_nonpos (by linarith)]
    linarith

lemma pyRound2_abs_le (q : ℚ) : |q - pyRound2 q| ≤ 1/200 := by
  have h := pyRoundHalfEven_abs_le (q * 100)
  rw [pyRound2]
  have heq : q - (pyRoundHalfEven (q * 100) : ℚ) / 100 =
      (q * 100 - (pyRoundHalfEven (q * 100) : ℚ)) / 100 := by
    ring
  rw [heq, abs_div, abs_of_pos (by norm_num : (0:ℚ) < 100)]
  linarith

/-- C3: with a supplied lexical error rate of `0` the result's `qwer`
is `0` and its level is `"Advanced"`; with rate `1` the `qwer` is `100`
and the level is `"Beginner"`; in general the level is `"Advanced"`
exactly when the Q-WER score `100·wer` is `< 10`, `"Intermediate"`
exactly when it lies in `[10, 25)`, and `"Beginner"` otherwise. -/
theorem C3_score_boundaries_and_levels :
    (∀ rw tl : ℕ, (analyze_audio_scoring 0 rw tl).qwer = 0 ∧
      (analyze_audio_scoring 0 rw tl).level = "Advanced") ∧
    (∀ rw tl : ℕ, (analyze_audio_scoring 1 rw tl).qwer = 100 ∧
      (analyze_audio_scoring 1 rw tl).level = "Beginner") ∧
    (∀ (wer : ℚ) (rw tl : ℕ),
      ((analyze_audio_scoring wer rw tl).level = "Advanced" ↔
        qwerScore wer < 10) ∧
      ((analyze_audio_scoring wer rw tl).level = "Intermediate" ↔
        10 ≤ qwerScore wer ∧ qwerScore wer < 25) ∧
      ((analyze_audio_scoring wer rw tl).level = "Beginner" ↔
        25 ≤ qwerScore wer)) := by
  have hlevel : ∀ (wer : ℚ) (rw tl : ℕ),
      (analyze_audio_scoring wer rw tl).level =
        (if wer * 100 < 10 then "Advanced"
         else if wer * 100 < 25 then "Intermediate" else "Beginner") := by
    intro wer rw tl
    rfl
  refine ⟨?_, ?_, ?_⟩
  · intro rw tl
    constructor
    · show pyRound2 (0 * 100) = 0
      norm_num [pyRound2, pyRoundHalfEven]
    · rw [hlevel]
      norm_num
  · intro rw tl
    constructor
    · show pyRound2 (1 * 100) = 100
      norm_num [pyRound2, pyRoundHalfEven]
    · rw [hlevel]
      norm_num
  · intro wer rw tl
    rw [hlevel]
    simp only [qwerScore]
    by_cases h1 : wer * 100 < 10
    · rw [if_pos h1]
      exact ⟨⟨fun _ => h1, fun _ => rfl⟩,
        ⟨fun h => absurd h (by decide), fun h => absurd h1 (not_lt.mpr h.1)⟩,
        ⟨fun h => absurd h (by decide),
          fun h => absurd h1 (not_lt.mpr ((by norm_num : (10:ℚ) ≤ 25).trans h))⟩⟩
    · by_cases h2 : wer * 100 < 25
      · rw [if_neg h1, if_pos h2]
        exact ⟨⟨fun h => absurd h (by decide), fun h => absurd h h1⟩,
          ⟨fun _ => ⟨le_of_not_lt h1, h2⟩, fun _ => rfl⟩,
          ⟨fun h => absurd h (by decide), fun h => absurd h2 (not_lt.mpr h)⟩⟩
      · rw [if_neg h1, if_neg h2]
        exact ⟨⟨fun h => absurd h (by decide), fun h => absurd h h1⟩,
          ⟨fun h => absurd h (by decide), fun h => absurd h.2 h2⟩,
          ⟨fun _ => le_of_not_lt h2, fun _ => rfl⟩⟩

/-- C4: the four `error_breakdown` values sum exactly to the Q-WER
score (hence match the stored, 2-decimal-rounded `qwer` within the
`0.005` rounding tolerance), and the categories are exactly 30%, 40%,
20% and 10% of the score. -/
theorem C4_category_weights (wer : ℚ) (rw tl : ℕ) :
    ((analyze_audio_scoring wer rw tl).error_breakdown.makhraj +
      (analyze_audio_scoring wer rw tl).error_breakdown.tajwid +
      (analyze_audio_scoring wer rw tl).error_breakdown.harakat +
      (analyze_audio_scoring wer rw tl).error_breakdown.rhythm =
        qwerScore wer) ∧
    |(analyze_audio_scoring wer rw tl).error_breakdown.makhraj +
      (analyze_audio_scoring wer rw tl).error_breakdown.tajwid +
      (analyze_audio_scoring wer rw tl).error_breakdown.harakat +
      (analyze_audio_scoring wer rw tl).error_breakdown.rhythm -
      (analyze_audio_scoring wer rw tl).qwer| ≤ 1/200 ∧
    (analyze_audio_scoring wer rw tl).error_breakdown.makhraj =
      (3/10) * qwerScore wer ∧
    (analyze_audio_scoring wer rw tl).error_breakdown.tajwid =
      (4/10) * qwerScore wer ∧
    (analyze_audio_scoring wer rw tl).error_breakdown.harakat =
      (2/10) * qwerScore wer ∧
    (analyze_audio_scoring wer rw tl).error_breakdown.rhythm =
      (1/10) * qwerScore wer := by
  have hsum : (analyze_audio_scoring wer rw tl).error_breakdown.makhraj +
      (analyze_audio_scoring wer rw tl).error_breakdown.tajwid +
      (analyze_audio_scoring wer rw tl).error_breakdown.harakat +
      (analyze_audio_scoring wer rw tl).error_breakdown.rhythm =
        qwerScore wer := by
    show wer * 100 * (3/10) + wer * 100 * (4/10) + wer * 100 * (2/10) +
      wer * 100 * (1/10) = wer * 100
    ring
  refine ⟨hsum, ?_, by show wer * 100 * (3/10) = (3/10) * (wer * 100); ring,
    by show wer * 100 * (4/10) = (4/10) * (wer * 100); ring,
    by show wer * 100 * (2/10) = (2/10) * (wer * 100); ring,
    by show wer * 100 * (1/10) = (1/10) * (wer * 100); ring⟩
  rw [hsum]
  show |qwerScore wer - pyRound2 (wer * 100)| ≤ 1/200
  exact pyRound2_abs_le (wer * 100)

end QuranAgent
